import Mathlib

/-!
# Verification of the robot grid simulator state machine

Shallow embedding of `src/robot_simulator.py` (`class RobotSimulator`).
The unbounded Python integers are modelled by `Int`; the obstacle set (a
Python `set` of coordinate pairs) is modelled by a duplicate-free
`List (Int × Int)` manipulated with `List.insert` / `List.erase`, which
agree with set insertion/removal on duplicate-free lists.

Every operation of the Python class prints a distinguishing error
message on failure and returns a boolean.  We model the result of an
operation as `Option Diag × RobotSimulator`: `none` in the first
component is the Python `True` (success), `some d` is `False` together
with the diagnostic `d` that was printed.
-/

/-- The four robot headings (the `Direction` enum with values 0..3). -/
inductive Direction where
  | north : Direction
  | east : Direction
  | south : Direction
  | west : Direction
  deriving DecidableEq

/-- Value of the Python enum member, `Direction.value`. -/
def Direction.value : Direction → Int
  | Direction.north => 0
  | Direction.east => 1
  | Direction.south => 2
  | Direction.west => 3

/-- The Python enum constructor `Direction(v)` for `v ∈ {0,1,2,3}`
(the only arguments the source ever passes). -/
def Direction.ofValue (v : Int) : Direction :=
  if v = 0 then Direction.north
  else if v = 1 then Direction.east
  else if v = 2 then Direction.south
  else Direction.west

/-- The diagnostics the simulator prints on failure paths, one per
distinct `print("ERROR: ...")` message in the source. -/
inductive Diag where
  | insufficientBattery : Diag
  | outOfBounds : Diag
  | hitObstacle : Diag
  | invalidDiagonal : Diag
  | invalidObstaclePos : Diag
  | obstacleOnRobot : Diag
  | obstacleNotFound : Diag
  | invalidGridSize : Diag
  deriving DecidableEq

/-- The mutable state of `class RobotSimulator`.  The constructor also
stores `movement_cost = 5` and `turn_cost = 2`; since no code path ever
changes them, they are top-level constants here rather than fields. -/
structure RobotSimulator where
  grid_size : Int
  position : Int × Int
  direction : Direction
  battery_level : Int
  obstacles : List (Int × Int)
  deriving DecidableEq

/-- Constant `self.movement_cost = 5` (battery cost per movement). -/
def movement_cost : Int := 5

/-- Constant `self.turn_cost = 2` (battery cost per turn). -/
def turn_cost : Int := 2

/-- Seeding of obstacles (source method on lines 52-57): the fixed seed positions, each added when
it lies inside `[0, grid_size)` on both axes. -/
def init_obstacles (grid_size : Int) : List (Int × Int) :=
  [((1 : Int), (1 : Int)), (2, 3), (3, 1), (4, 4)].foldl
    (fun obstacles pos =>
      if 0 ≤ pos.1 ∧ pos.1 < grid_size ∧ 0 ≤ pos.2 ∧ pos.2 < grid_size then
        obstacles.insert pos
      else obstacles)
    []

/-- Constructor `__init__(grid_size, battery_level)`. -/
def RobotSimulator.init (grid_size battery_level : Int) : RobotSimulator :=
  { grid_size := grid_size
    position := (0, 0)
    direction := Direction.north
    battery_level := battery_level
    obstacles := init_obstacles grid_size }

/-- Check `_is_valid_position`: position within grid boundaries. -/
def RobotSimulator.is_valid_position (s : RobotSimulator) (position : Int × Int) : Bool :=
  decide (0 ≤ position.1 ∧ position.1 < s.grid_size ∧
          0 ≤ position.2 ∧ position.2 < s.grid_size)

/-- Check `_is_obstacle`: membership in the obstacle set. -/
def RobotSimulator.is_obstacle (s : RobotSimulator) (position : Int × Int) : Bool :=
  decide (position ∈ s.obstacles)

/-- Helper `_get_next_position`: one step from the current position in the
current heading. -/
def RobotSimulator.get_next_position (s : RobotSimulator) : Int × Int :=
  let x := s.position.1
  let y := s.position.2
  match s.direction with
  | Direction.north => (x, y + 1)
  | Direction.east => (x + 1, y)
  | Direction.south => (x, y - 1)
  | Direction.west => (x - 1, y)

/-- Gate `_has_sufficient_battery(cost)`: `battery_level >= cost`. -/
def RobotSimulator.has_sufficient_battery (s : RobotSimulator) (cost : Int) : Bool :=
  decide (s.battery_level ≥ cost)

/-- Update `_consume_battery(cost)`: `battery_level = max(0, battery_level - cost)`. -/
def RobotSimulator.consume_battery (s : RobotSimulator) (cost : Int) : RobotSimulator :=
  { s with battery_level := max 0 (s.battery_level - cost) }

/-- Operation `forward()`: battery gate, then boundary check, then obstacle check;
on success move one cell and pay `movement_cost`. -/
def RobotSimulator.forward (s : RobotSimulator) : Option Diag × RobotSimulator :=
  if s.has_sufficient_battery movement_cost then
    let next_position := s.get_next_position
    if s.is_valid_position next_position then
      if s.is_obstacle next_position then
        (some Diag.hitObstacle, s)
      else
        (none, RobotSimulator.consume_battery { s with position := next_position } movement_cost)
    else
      (some Diag.outOfBounds, s)
  else
    (some Diag.insufficientBattery, s)

/-- Operation `left()`: battery gate, then `direction = Direction((value - 1) % 4)`
(Python `%` is euclidean on a positive modulus, i.e. `Int.emod`). -/
def RobotSimulator.left (s : RobotSimulator) : Option Diag × RobotSimulator :=
  if s.has_sufficient_battery turn_cost then
    (none, RobotSimulator.consume_battery
      { s with direction := Direction.ofValue ((s.direction.value - 1) % 4) } turn_cost)
  else
    (some Diag.insufficientBattery, s)

/-- Operation `right()`: battery gate, then `direction = Direction((value + 1) % 4)`. -/
def RobotSimulator.right (s : RobotSimulator) : Option Diag × RobotSimulator :=
  if s.has_sufficient_battery turn_cost then
    (none, RobotSimulator.consume_battery
      { s with direction := Direction.ofValue ((s.direction.value + 1) % 4) } turn_cost)
  else
    (some Diag.insufficientBattery, s)

/-- Operation `report()`: prints a snapshot; no state change, no failure. -/
def RobotSimulator.report (s : RobotSimulator) : Option Diag × RobotSimulator :=
  (none, s)

/-- The battery gate of `diagonal_move`:
`battery_level >= movement_cost * 1.5`.  With an integer battery and
`movement_cost = 5` the float comparison `b >= 7.5` is exact, and equals
`2 * b ≥ 3 * movement_cost` over the integers. -/
def RobotSimulator.diagonal_gate (s : RobotSimulator) : Bool :=
  decide (2 * s.battery_level ≥ 3 * movement_cost)

/-- The deducted diagonal cost `int(movement_cost * 1.5)`: `7.5`
truncated toward zero, i.e. `(3 * movement_cost) / 2 = 7`. -/
def diagonal_cost : Int := (3 * movement_cost) / 2

/-- The tail of `diagonal_move` after the target cell is chosen:
boundary check, obstacle check, then move and pay `diagonal_cost`. -/
def RobotSimulator.diagonal_step (s : RobotSimulator) (next_position : Int × Int) :
    Option Diag × RobotSimulator :=
  if s.is_valid_position next_position then
    if s.is_obstacle next_position then
      (some Diag.hitObstacle, s)
    else
      (none, RobotSimulator.consume_battery { s with position := next_position } diagonal_cost)
  else
    (some Diag.outOfBounds, s)

/-- Operation `diagonal_move(direction)`: fractional battery gate first, then the
direction-string dispatch, then the same boundary/obstacle checks as
`forward`. -/
def RobotSimulator.diagonal_move (s : RobotSimulator) (direction : String) :
    Option Diag × RobotSimulator :=
  if s.diagonal_gate then
    let x := s.position.1
    let y := s.position.2
    if direction = "northeast" then s.diagonal_step (x + 1, y + 1)
    else if direction = "northwest" then s.diagonal_step (x - 1, y + 1)
    else if direction = "southeast" then s.diagonal_step (x + 1, y - 1)
    else if direction = "southwest" then s.diagonal_step (x - 1, y - 1)
    else (some Diag.invalidDiagonal, s)
  else
    (some Diag.insufficientBattery, s)

/-- Operation `add_obstacle(position)`: reject out-of-bounds positions and the
cell of the robot; otherwise insert (idempotent). -/
def RobotSimulator.add_obstacle (s : RobotSimulator) (position : Int × Int) :
    Option Diag × RobotSimulator :=
  if s.is_valid_position position then
    if position = s.position then
      (some Diag.obstacleOnRobot, s)
    else
      (none, { s with obstacles := s.obstacles.insert position })
  else
    (some Diag.invalidObstaclePos, s)

/-- Operation `remove_obstacle(position)`: remove if present, else fail. -/
def RobotSimulator.remove_obstacle (s : RobotSimulator) (position : Int × Int) :
    Option Diag × RobotSimulator :=
  if position ∈ s.obstacles then
    (none, { s with obstacles := s.obstacles.erase position })
  else
    (some Diag.obstacleNotFound, s)

/-- Operation `expand_grid(new_size)`: require strictly larger, then set. -/
def RobotSimulator.expand_grid (s : RobotSimulator) (new_size : Int) :
    Option Diag × RobotSimulator :=
  if new_size ≤ s.grid_size then
    (some Diag.invalidGridSize, s)
  else
    (none, { s with grid_size := new_size })

/-- One public operation of the simulator, for reachability statements. -/
inductive Op where
  | forward : Op
  | left : Op
  | right : Op
  | diagonal : String → Op
  | addObstacle : Int × Int → Op
  | removeObstacle : Int × Int → Op
  | expandGrid : Int → Op
  | report : Op

/-- Apply one public operation, keeping only the resulting state. -/
def RobotSimulator.step (s : RobotSimulator) : Op → RobotSimulator
  | Op.forward => s.forward.2
  | Op.left => s.left.2
  | Op.right => s.right.2
  | Op.diagonal d => (s.diagonal_move d).2
  | Op.addObstacle p => (s.add_obstacle p).2
  | Op.removeObstacle p => (s.remove_obstacle p).2
  | Op.expandGrid n => (s.expand_grid n).2
  | Op.report => s.report.2

/-- Apply a sequence of public operations from left to right. -/
def RobotSimulator.run (s : RobotSimulator) (ops : List Op) : RobotSimulator :=
  ops.foldl RobotSimulator.step s

/-! ## Characterization lemmas for the individual operations -/

/-- Equation for `forward` as one case split over propositional guards. -/
theorem forward_eq (s : RobotSimulator) :
    s.forward =
      if s.battery_level < 5 then (some Diag.insufficientBattery, s)
      else if ¬ (0 ≤ s.get_next_position.1 ∧ s.get_next_position.1 < s.grid_size ∧
                 0 ≤ s.get_next_position.2 ∧ s.get_next_position.2 < s.grid_size) then
        (some Diag.outOfBounds, s)
      else if s.get_next_position ∈ s.obstacles then
        (some Diag.hitObstacle, s)
      else
        (none, { s with position := s.get_next_position,
                        battery_level := max 0 (s.battery_level - 5) }) := by
  unfold RobotSimulator.forward RobotSimulator.has_sufficient_battery
    RobotSimulator.is_valid_position RobotSimulator.is_obstacle RobotSimulator.consume_battery
    movement_cost
  simp only [decide_eq_true_eq]
  split_ifs <;> first | rfl | omega

/-- Equation for `left` as one case split over propositional guards. -/
theorem left_eq (s : RobotSimulator) :
    s.left =
      if s.battery_level < 2 then (some Diag.insufficientBattery, s)
      else
        (none, { s with direction := Direction.ofValue ((s.direction.value - 1) % 4),
                        battery_level := max 0 (s.battery_level - 2) }) := by
  unfold RobotSimulator.left RobotSimulator.has_sufficient_battery
    RobotSimulator.consume_battery turn_cost
  simp only [decide_eq_true_eq]
  split_ifs <;> first | rfl | omega

/-- Equation for `right` as one case split over propositional guards. -/
theorem right_eq (s : RobotSimulator) :
    s.right =
      if s.battery_level < 2 then (some Diag.insufficientBattery, s)
      else
        (none, { s with direction := Direction.ofValue ((s.direction.value + 1) % 4),
                        battery_level := max 0 (s.battery_level - 2) }) := by
  unfold RobotSimulator.right RobotSimulator.has_sufficient_battery
    RobotSimulator.consume_battery turn_cost
  simp only [decide_eq_true_eq]
  split_ifs <;> first | rfl | omega

/-- Equation for `diagonal_step` as one case split over propositional guards. -/
theorem diagonal_step_eq (s : RobotSimulator) (p : Int × Int) :
    s.diagonal_step p =
      if ¬ (0 ≤ p.1 ∧ p.1 < s.grid_size ∧ 0 ≤ p.2 ∧ p.2 < s.grid_size) then
        (some Diag.outOfBounds, s)
      else if p ∈ s.obstacles then
        (some Diag.hitObstacle, s)
      else
        (none, { s with position := p,
                        battery_level := max 0 (s.battery_level - 7) }) := by
  unfold RobotSimulator.diagonal_step RobotSimulator.is_valid_position
    RobotSimulator.is_obstacle RobotSimulator.consume_battery diagonal_cost movement_cost
  simp only [decide_eq_true_eq]
  split_ifs <;> rfl

/-- The diagonal battery gate as a proposition. -/
theorem diagonal_gate_eq (s : RobotSimulator) :
    s.diagonal_gate = decide (15 ≤ 2 * s.battery_level) := by
  unfold RobotSimulator.diagonal_gate movement_cost
  norm_num

/-- Equation for `diagonal_move` as one case split: gate, then dispatch. -/
theorem diagonal_move_eq (s : RobotSimulator) (d : String) :
    s.diagonal_move d =
      if 2 * s.battery_level < 15 then (some Diag.insufficientBattery, s)
      else if d = "northeast" then s.diagonal_step (s.position.1 + 1, s.position.2 + 1)
      else if d = "northwest" then s.diagonal_step (s.position.1 - 1, s.position.2 + 1)
      else if d = "southeast" then s.diagonal_step (s.position.1 + 1, s.position.2 - 1)
      else if d = "southwest" then s.diagonal_step (s.position.1 - 1, s.position.2 - 1)
      else (some Diag.invalidDiagonal, s) := by
  unfold RobotSimulator.diagonal_move RobotSimulator.diagonal_gate movement_cost
  simp only [decide_eq_true_eq]
  split_ifs <;> first | rfl | omega

/-- Equation for `add_obstacle` as one case split over propositional guards. -/
theorem add_obstacle_eq (s : RobotSimulator) (p : Int × Int) :
    s.add_obstacle p =
      if ¬ (0 ≤ p.1 ∧ p.1 < s.grid_size ∧ 0 ≤ p.2 ∧ p.2 < s.grid_size) then
        (some Diag.invalidObstaclePos, s)
      else if p = s.position then
        (some Diag.obstacleOnRobot, s)
      else
        (none, { s with obstacles := s.obstacles.insert p }) := by
  unfold RobotSimulator.add_obstacle RobotSimulator.is_valid_position
  simp only [decide_eq_true_eq]
  split_ifs <;> rfl

/-- Equation for `remove_obstacle` (its definition is already a single split). -/
theorem remove_obstacle_eq (s : RobotSimulator) (p : Int × Int) :
    s.remove_obstacle p =
      if p ∈ s.obstacles then (none, { s with obstacles := s.obstacles.erase p })
      else (some Diag.obstacleNotFound, s) := rfl

/-- Equation for `expand_grid` (its definition is already a single split). -/
theorem expand_grid_eq (s : RobotSimulator) (n : Int) :
    s.expand_grid n =
      if n ≤ s.grid_size then (some Diag.invalidGridSize, s)
      else (none, { s with grid_size := n }) := rfl

/-- Anything in a fold of guarded insertions came from the accumulator
or from the list being folded. -/
theorem mem_foldl_insert {C : Int × Int → Prop} [DecidablePred C] :
    ∀ (l acc : List (Int × Int)) (p : Int × Int),
      p ∈ l.foldl (fun obstacles pos => if C pos then obstacles.insert pos else obstacles) acc →
      p ∈ acc ∨ p ∈ l := by
  intro l
  induction l with
  | nil => exact fun acc p hp => Or.inl hp
  | cons head tail ih =>
    intro acc p hp
    simp only [List.foldl_cons] at hp
    rcases ih _ p hp with h | h
    · by_cases hC : C head
      · rw [if_pos hC] at h
        rcases List.mem_insert_iff.1 h with h | h
        · exact Or.inr (by simp [h])
        · exact Or.inl h
      · rw [if_neg hC] at h
        exact Or.inl h
    · exact Or.inr (List.mem_cons_of_mem _ h)

/-- The seeded obstacles are among the four fixed seed positions. -/
theorem mem_init_obstacles {p : Int × Int} {grid_size : Int}
    (hp : p ∈ init_obstacles grid_size) :
    p = (1, 1) ∨ p = (2, 3) ∨ p = (3, 1) ∨ p = (4, 4) := by
  unfold init_obstacles at hp
  rcases mem_foldl_insert _ _ _ hp with h | h
  · simp at h
  · simpa using h

/-! ## Invariants preserved by every public operation -/

/-- The robot position lies within `[0, grid_size)` on both axes. -/
def pos_in_bounds (s : RobotSimulator) : Prop :=
  0 ≤ s.position.1 ∧ s.position.1 < s.grid_size ∧
  0 ≤ s.position.2 ∧ s.position.2 < s.grid_size

/-- Applying `diagonal_step` keeps the position in bounds. -/
theorem diagonal_step_pos_in_bounds (s : RobotSimulator) (p : Int × Int)
    (h : pos_in_bounds s) : pos_in_bounds (s.diagonal_step p).2 := by
  rw [diagonal_step_eq]
  by_cases h1 : 0 ≤ p.1 ∧ p.1 < s.grid_size ∧ 0 ≤ p.2 ∧ p.2 < s.grid_size
  · rw [if_neg (not_not_intro h1)]
    by_cases h2 : p ∈ s.obstacles
    · rw [if_pos h2]
      exact h
    · rw [if_neg h2]
      exact h1
  · rw [if_pos h1]
    exact h

/-- Every public operation keeps the position in bounds. -/
theorem step_pos_in_bounds (s : RobotSimulator) (op : Op) (h : pos_in_bounds s) :
    pos_in_bounds (s.step op) := by
  cases op with
  | forward =>
    show pos_in_bounds s.forward.2
    rw [forward_eq]
    by_cases h1 : s.battery_level < 5
    · rw [if_pos h1]
      exact h
    · rw [if_neg h1]
      by_cases h2 : 0 ≤ s.get_next_position.1 ∧ s.get_next_position.1 < s.grid_size ∧
          0 ≤ s.get_next_position.2 ∧ s.get_next_position.2 < s.grid_size
      · rw [if_neg (not_not_intro h2)]
        by_cases h3 : s.get_next_position ∈ s.obstacles
        · rw [if_pos h3]
          exact h
        · rw [if_neg h3]
          exact h2
      · rw [if_pos h2]
        exact h
  | left =>
    show pos_in_bounds s.left.2
    rw [left_eq]
    split_ifs <;> exact h
  | right =>
    show pos_in_bounds s.right.2
    rw [right_eq]
    split_ifs <;> exact h
  | diagonal d =>
    show pos_in_bounds (s.diagonal_move d).2
    rw [diagonal_move_eq]
    split_ifs <;> first | exact h | exact diagonal_step_pos_in_bounds s _ h
  | addObstacle p =>
    show pos_in_bounds (s.add_obstacle p).2
    rw [add_obstacle_eq]
    split_ifs <;> exact h
  | removeObstacle p =>
    show pos_in_bounds (s.remove_obstacle p).2
    rw [remove_obstacle_eq]
    split_ifs <;> exact h
  | expandGrid n =>
    show pos_in_bounds (s.expand_grid n).2
    rw [expand_grid_eq]
    by_cases h1 : n ≤ s.grid_size
    · rw [if_pos h1]
      exact h
    · rw [if_neg h1]
      show 0 ≤ s.position.1 ∧ s.position.1 < n ∧ 0 ≤ s.position.2 ∧ s.position.2 < n
      obtain ⟨a, b, c, d⟩ := h
      exact ⟨a, by omega, c, by omega⟩
  | report => exact h

/-- Running any operation sequence keeps the position in bounds. -/
theorem run_pos_in_bounds (ops : List Op) :
    ∀ s : RobotSimulator, pos_in_bounds s → pos_in_bounds (s.run ops) := by
  induction ops with
  | nil => exact fun s h => h
  | cons op ops ih => exact fun s h => ih _ (step_pos_in_bounds s op h)

/-- Every public operation keeps the battery non-negative. -/
theorem step_battery_nonneg (s : RobotSimulator) (op : Op) (h : 0 ≤ s.battery_level) :
    0 ≤ (s.step op).battery_level := by
  cases op with
  | forward =>
    show 0 ≤ s.forward.2.battery_level
    rw [forward_eq]
    split_ifs <;> simp [h, le_max_left]
  | left =>
    show 0 ≤ s.left.2.battery_level
    rw [left_eq]
    split_ifs <;> simp [h, le_max_left]
  | right =>
    show 0 ≤ s.right.2.battery_level
    rw [right_eq]
    split_ifs <;> simp [h, le_max_left]
  | diagonal d =>
    show 0 ≤ (s.diagonal_move d).2.battery_level
    rw [diagonal_move_eq]
    split_ifs <;>
      first
      | exact h
      | · rw [diagonal_step_eq]
          split_ifs <;> simp [h, le_max_left]
  | addObstacle p =>
    show 0 ≤ (s.add_obstacle p).2.battery_level
    rw [add_obstacle_eq]
    split_ifs <;> exact h
  | removeObstacle p =>
    show 0 ≤ (s.remove_obstacle p).2.battery_level
    rw [remove_obstacle_eq]
    split_ifs <;> exact h
  | expandGrid n =>
    show 0 ≤ (s.expand_grid n).2.battery_level
    rw [expand_grid_eq]
    split_ifs <;> exact h
  | report => exact h

/-- Running any operation sequence keeps the battery non-negative. -/
theorem run_battery_nonneg (ops : List Op) :
    ∀ s : RobotSimulator, 0 ≤ s.battery_level → 0 ≤ (s.run ops).battery_level := by
  induction ops with
  | nil => exact fun s h => h
  | cons op ops ih => exact fun s h => ih _ (step_battery_nonneg s op h)

/-- Applying `diagonal_step` keeps the position off the obstacle set. -/
theorem diagonal_step_not_obstacle (s : RobotSimulator) (p : Int × Int)
    (h : s.position ∉ s.obstacles) :
    (s.diagonal_step p).2.position ∉ (s.diagonal_step p).2.obstacles := by
  rw [diagonal_step_eq]
  by_cases h1 : 0 ≤ p.1 ∧ p.1 < s.grid_size ∧ 0 ≤ p.2 ∧ p.2 < s.grid_size
  · rw [if_neg (not_not_intro h1)]
    by_cases h2 : p ∈ s.obstacles
    · rw [if_pos h2]
      exact h
    · rw [if_neg h2]
      exact h2
  · rw [if_pos h1]
    exact h

/-- Every public operation keeps the position off the obstacle set. -/
theorem step_not_obstacle (s : RobotSimulator) (op : Op) (h : s.position ∉ s.obstacles) :
    (s.step op).position ∉ (s.step op).obstacles := by
  cases op with
  | forward =>
    show s.forward.2.position ∉ s.forward.2.obstacles
    rw [forward_eq]
    by_cases h1 : s.battery_level < 5
    · rw [if_pos h1]
      exact h
    · rw [if_neg h1]
      by_cases h2 : 0 ≤ s.get_next_position.1 ∧ s.get_next_position.1 < s.grid_size ∧
          0 ≤ s.get_next_position.2 ∧ s.get_next_position.2 < s.grid_size
      · rw [if_neg (not_not_intro h2)]
        by_cases h3 : s.get_next_position ∈ s.obstacles
        · rw [if_pos h3]
          exact h
        · rw [if_neg h3]
          exact h3
      · rw [if_pos h2]
        exact h
  | left =>
    show s.left.2.position ∉ s.left.2.obstacles
    rw [left_eq]
    split_ifs <;> exact h
  | right =>
    show s.right.2.position ∉ s.right.2.obstacles
    rw [right_eq]
    split_ifs <;> exact h
  | diagonal d =>
    show (s.diagonal_move d).2.position ∉ (s.diagonal_move d).2.obstacles
    rw [diagonal_move_eq]
    split_ifs <;> first | exact h | exact diagonal_step_not_obstacle s _ h
  | addObstacle p =>
    show (s.add_obstacle p).2.position ∉ (s.add_obstacle p).2.obstacles
    rw [add_obstacle_eq]
    by_cases h1 : 0 ≤ p.1 ∧ p.1 < s.grid_size ∧ 0 ≤ p.2 ∧ p.2 < s.grid_size
    · rw [if_neg (not_not_intro h1)]
      by_cases h2 : p = s.position
      · rw [if_pos h2]
        exact h
      · rw [if_neg h2]
        show s.position ∉ s.obstacles.insert p
        intro hmem
        rcases List.mem_insert_iff.1 hmem with heq | hmem
        · exact h2 heq.symm
        · exact h hmem
    · rw [if_pos h1]
      exact h
  | removeObstacle p =>
    show (s.remove_obstacle p).2.position ∉ (s.remove_obstacle p).2.obstacles
    rw [remove_obstacle_eq]
    split_ifs with h1
    · exact fun hmem => h (List.mem_of_mem_erase hmem)
    · exact h
  | expandGrid n =>
    show (s.expand_grid n).2.position ∉ (s.expand_grid n).2.obstacles
    rw [expand_grid_eq]
    split_ifs <;> exact h
  | report => exact h

/-- Running any operation sequence keeps the position off the obstacle set. -/
theorem run_not_obstacle (ops : List Op) :
    ∀ s : RobotSimulator, s.position ∉ s.obstacles →
      (s.run ops).position ∉ (s.run ops).obstacles := by
  induction ops with
  | nil => exact fun s h => h
  | cons op ops ih => exact fun s h => ih _ (step_not_obstacle s op h)

/-- The constructed state never starts on an obstacle. -/
theorem init_not_obstacle (grid_size battery_level : Int) :
    (RobotSimulator.init grid_size battery_level).position ∉
      (RobotSimulator.init grid_size battery_level).obstacles := by
  intro hmem
  have h4 := mem_init_obstacles hmem
  have hpos : (RobotSimulator.init grid_size battery_level).position = ((0 : Int), (0 : Int)) :=
    rfl
  rw [hpos] at h4
  rcases h4 with h | h | h | h <;> exact absurd h (by decide)

/-! ## Further helper lemmas -/

/-- A successful turn right: heading advances by `+1 mod 4`, battery
drops by exactly 2. -/
theorem right_succ (s : RobotSimulator) (h : 2 ≤ s.battery_level) :
    s.right.2 = { s with direction := Direction.ofValue ((s.direction.value + 1) % 4),
                         battery_level := s.battery_level - 2 } := by
  rw [right_eq, if_neg (by omega)]
  have hmax : max 0 (s.battery_level - 2) = s.battery_level - 2 := by omega
  rw [hmax]

/-- A successful turn left: heading advances by `-1 mod 4`, battery
drops by exactly 2. -/
theorem left_succ (s : RobotSimulator) (h : 2 ≤ s.battery_level) :
    s.left.2 = { s with direction := Direction.ofValue ((s.direction.value - 1) % 4),
                        battery_level := s.battery_level - 2 } := by
  rw [left_eq, if_neg (by omega)]
  have hmax : max 0 (s.battery_level - 2) = s.battery_level - 2 := by omega
  rw [hmax]

/-- A failing `diagonal_step` leaves the state unchanged. -/
theorem diagonal_step_fail (s : RobotSimulator) (p : Int × Int)
    (h : (s.diagonal_step p).1 ≠ none) : (s.diagonal_step p).2 = s := by
  rw [diagonal_step_eq] at h ⊢
  by_cases h1 : 0 ≤ p.1 ∧ p.1 < s.grid_size ∧ 0 ≤ p.2 ∧ p.2 < s.grid_size
  · rw [if_neg (not_not_intro h1)] at h ⊢
    by_cases h2 : p ∈ s.obstacles
    · rw [if_pos h2]
    · rw [if_neg h2] at h
      exact absurd rfl h
  · rw [if_pos h1]

/-- A successful `diagonal_step` deducts exactly 7 battery units when
the battery was at least 8. -/
theorem diagonal_step_battery (s : RobotSimulator) (p : Int × Int)
    (hb : 8 ≤ s.battery_level) (h : (s.diagonal_step p).1 = none) :
    (s.diagonal_step p).2.battery_level = s.battery_level - 7 := by
  rw [diagonal_step_eq] at h ⊢
  by_cases h1 : 0 ≤ p.1 ∧ p.1 < s.grid_size ∧ 0 ≤ p.2 ∧ p.2 < s.grid_size
  · rw [if_neg (not_not_intro h1)] at h ⊢
    by_cases h2 : p ∈ s.obstacles
    · rw [if_pos h2] at h
      simp at h
    · rw [if_neg h2]
      show max 0 (s.battery_level - 7) = s.battery_level - 7
      omega
  · rw [if_pos h1] at h
    simp at h

/-- Applying `diagonal_step` never touches heading, grid size or obstacles. -/
theorem diagonal_step_frame (s : RobotSimulator) (p : Int × Int) :
    (s.diagonal_step p).2.direction = s.direction ∧
    (s.diagonal_step p).2.grid_size = s.grid_size ∧
    (s.diagonal_step p).2.obstacles = s.obstacles := by
  rw [diagonal_step_eq]
  split_ifs <;> exact ⟨rfl, rfl, rfl⟩

/-- A mid-grid test state: the default 5×5 simulator placed at (2,2)
with the given battery level. -/
def midState (battery : Int) : RobotSimulator :=
  { grid_size := 5, position := (2, 2), direction := Direction.north,
    battery_level := battery, obstacles := init_obstacles 5 }

/-! ## The claims -/

/-- C1: `forward` checks its preconditions in order — battery ≥ 5, then
the next position (per heading: North→y+1, East→x+1, South→y−1,
West→x−1) within `[0, grid_size)` on both axes, then next position not
an obstacle.  Any failed check returns false with the state unchanged;
when all pass, the position becomes the next position, the battery drops
by exactly 5, and the call returns true. -/
theorem C1_forward_spec (s : RobotSimulator) :
    (s.battery_level < 5 → s.forward = (some Diag.insufficientBattery, s)) ∧
    (5 ≤ s.battery_level →
      ¬ (0 ≤ s.get_next_position.1 ∧ s.get_next_position.1 < s.grid_size ∧
         0 ≤ s.get_next_position.2 ∧ s.get_next_position.2 < s.grid_size) →
      s.forward = (some Diag.outOfBounds, s)) ∧
    (5 ≤ s.battery_level →
      (0 ≤ s.get_next_position.1 ∧ s.get_next_position.1 < s.grid_size ∧
       0 ≤ s.get_next_position.2 ∧ s.get_next_position.2 < s.grid_size) →
      s.get_next_position ∈ s.obstacles →
      s.forward = (some Diag.hitObstacle, s)) ∧
    (5 ≤ s.battery_level →
      (0 ≤ s.get_next_position.1 ∧ s.get_next_position.1 < s.grid_size ∧
       0 ≤ s.get_next_position.2 ∧ s.get_next_position.2 < s.grid_size) →
      s.get_next_position ∉ s.obstacles →
      s.forward = (none, { s with position := s.get_next_position,
                                  battery_level := s.battery_level - 5 })) := by
  refine ⟨?_, ?_, ?_, ?_⟩
  · intro h1
    rw [forward_eq, if_pos h1]
  · intro h1 h2
    rw [forward_eq, if_neg (by omega), if_pos h2]
  · intro h1 h2 h3
    rw [forward_eq, if_neg (by omega), if_neg (not_not_intro h2), if_pos h3]
  · intro h1 h2 h3
    rw [forward_eq, if_neg (by omega), if_neg (not_not_intro h2), if_neg h3]
    have hmax : max 0 (s.battery_level - 5) = s.battery_level - 5 := by omega
    rw [hmax]

/-- Witness for C1: the freshly constructed 5×5 simulator moves forward
to (0,1) with battery 95. -/
theorem C1_forward_spec_witness :
    (RobotSimulator.init 5 100).forward =
      (none, { RobotSimulator.init 5 100 with
                 position := ((0 : Int), (1 : Int))
                 battery_level := 95 }) := by
  have h := (C1_forward_spec (RobotSimulator.init 5 100)).2.2.2
    (by decide) (by decide) (by decide)
  rw [h]
  decide

/-- C2: the diagonal battery gate compares against the untruncated 7.5
(battery 7 is insufficient) while a successful diagonal move deducts the
truncated 7; concretely, at battery 100 from (2,2), `northeast` reaches
(3,3) with battery 93. -/
theorem C2_diagonal_cost (s : RobotSimulator) (d : String) :
    (s.battery_level ≤ 7 → s.diagonal_move d = (some Diag.insufficientBattery, s)) ∧
    ((s.diagonal_move d).1 = none →
      (s.diagonal_move d).2.battery_level = s.battery_level - 7) ∧
    RobotSimulator.diagonal_move (midState 100) "northeast" =
      (none, { midState 100 with position := (3, 3), battery_level := 93 }) := by
  refine ⟨?_, ?_, ?_⟩
  · intro h
    rw [diagonal_move_eq, if_pos (by omega)]
  · intro h
    rw [diagonal_move_eq] at h ⊢
    by_cases hg : 2 * s.battery_level < 15
    · rw [if_pos hg] at h
      simp at h
    · rw [if_neg hg] at h ⊢
      split_ifs at h ⊢ <;> exact diagonal_step_battery s _ (by omega) h
  · decide

/-- Witness for C2: battery 7 is rejected; battery 100 ends at 93. -/
theorem C2_diagonal_cost_witness :
    RobotSimulator.diagonal_move (midState 7) "northeast" =
      (some Diag.insufficientBattery, midState 7) ∧
    (RobotSimulator.diagonal_move (midState 100) "northeast").2.battery_level = 93 := by
  constructor
  · exact (C2_diagonal_cost (midState 7) "northeast").1 (by decide)
  · have h := (C2_diagonal_cost (midState 100) "northeast").2.1 (by decide)
    rw [h]
    decide

/-- C3: from any constructed state (position (0,0)) with a positive grid
size, every sequence of public operations keeps the robot position
within `[0, grid_size)` on both axes. -/
theorem C3_position_in_bounds (grid_size battery_level : Int) (ops : List Op)
    (h : 0 < grid_size) :
    pos_in_bounds ((RobotSimulator.init grid_size battery_level).run ops) :=
  run_pos_in_bounds ops _ ⟨le_refl 0, h, le_refl 0, h⟩

/-- Witness for C3 on a short concrete operation sequence. -/
theorem C3_position_in_bounds_witness :
    (0 : Int) < 5 ∧
    pos_in_bounds ((RobotSimulator.init 5 100).run
      [Op.forward, Op.right, Op.forward, Op.diagonal "northeast", Op.expandGrid 9]) :=
  ⟨by decide,
   C3_position_in_bounds 5 100
     [Op.forward, Op.right, Op.forward, Op.diagonal "northeast", Op.expandGrid 9] (by decide)⟩

/-- C4: every operation that returns false leaves every field of the
state exactly as it was — no partial mutation on any failure path. -/
theorem C4_failure_atomic (s : RobotSimulator) :
    (s.forward.1 ≠ none → s.forward.2 = s) ∧
    (s.left.1 ≠ none → s.left.2 = s) ∧
    (s.right.1 ≠ none → s.right.2 = s) ∧
    (∀ d : String, (s.diagonal_move d).1 ≠ none → (s.diagonal_move d).2 = s) ∧
    (∀ p : Int × Int, (s.add_obstacle p).1 ≠ none → (s.add_obstacle p).2 = s) ∧
    (∀ p : Int × Int, (s.remove_obstacle p).1 ≠ none → (s.remove_obstacle p).2 = s) ∧
    (∀ n : Int, (s.expand_grid n).1 ≠ none → (s.expand_grid n).2 = s) := by
  refine ⟨?_, ?_, ?_, ?_, ?_, ?_, ?_⟩
  · rw [forward_eq]
    split_ifs <;> intro h <;> first | rfl | exact absurd rfl h
  · rw [left_eq]
    split_ifs <;> intro h <;> first | rfl | exact absurd rfl h
  · rw [right_eq]
    split_ifs <;> intro h <;> first | rfl | exact absurd rfl h
  · intro d
    rw [diagonal_move_eq]
    split_ifs <;> intro h <;> first | rfl | exact diagonal_step_fail s _ h
  · intro p
    rw [add_obstacle_eq]
    split_ifs <;> intro h <;> first | rfl | exact absurd rfl h
  · intro p
    rw [remove_obstacle_eq]
    split_ifs <;> intro h <;> first | rfl | exact absurd rfl h
  · intro n
    rw [expand_grid_eq]
    split_ifs <;> intro h <;> first | rfl | exact absurd rfl h

/-- Witness for C4: shrinking the grid fails and changes nothing. -/
theorem C4_failure_atomic_witness :
    ((RobotSimulator.init 5 100).expand_grid 3).1 ≠ none ∧
    ((RobotSimulator.init 5 100).expand_grid 3).2 = RobotSimulator.init 5 100 :=
  ⟨by decide, (C4_failure_atomic (RobotSimulator.init 5 100)).2.2.2.2.2.2 3 (by decide)⟩

/-- C5: with enough battery for four turns, four consecutive `right`
calls restore the heading, and so do four consecutive `left` calls. -/
theorem C5_turn_cycle (s : RobotSimulator) (h : 8 ≤ s.battery_level) :
    s.right.2.right.2.right.2.right.2.direction = s.direction ∧
    s.left.2.left.2.left.2.left.2.direction = s.direction := by
  have rb : ∀ t : RobotSimulator, 2 ≤ t.battery_level →
      t.right.2.battery_level = t.battery_level - 2 := by
    intro t ht
    rw [right_succ t ht]
  have rd : ∀ t : RobotSimulator, 2 ≤ t.battery_level →
      t.right.2.direction = Direction.ofValue ((t.direction.value + 1) % 4) := by
    intro t ht
    rw [right_succ t ht]
  have lb : ∀ t : RobotSimulator, 2 ≤ t.battery_level →
      t.left.2.battery_level = t.battery_level - 2 := by
    intro t ht
    rw [left_succ t ht]
  have ld : ∀ t : RobotSimulator, 2 ≤ t.battery_level →
      t.left.2.direction = Direction.ofValue ((t.direction.value - 1) % 4) := by
    intro t ht
    rw [left_succ t ht]
  constructor
  · have b1 := rb s (by omega)
    have b2 := rb s.right.2 (by rw [b1]; omega)
    have b3 := rb s.right.2.right.2 (by rw [b2, b1]; omega)
    have d1 := rd s (by omega)
    have d2 := rd s.right.2 (by rw [b1]; omega)
    have d3 := rd s.right.2.right.2 (by rw [b2, b1]; omega)
    have d4 := rd s.right.2.right.2.right.2 (by rw [b3, b2, b1]; omega)
    rw [d4, d3, d2, d1]
    cases hd : s.direction <;> decide
  · have b1 := lb s (by omega)
    have b2 := lb s.left.2 (by rw [b1]; omega)
    have b3 := lb s.left.2.left.2 (by rw [b2, b1]; omega)
    have d1 := ld s (by omega)
    have d2 := ld s.left.2 (by rw [b1]; omega)
    have d3 := ld s.left.2.left.2 (by rw [b2, b1]; omega)
    have d4 := ld s.left.2.left.2.left.2 (by rw [b3, b2, b1]; omega)
    rw [d4, d3, d2, d1]
    cases hd : s.direction <;> decide

/-- Witness for C5 at the freshly constructed simulator. -/
theorem C5_turn_cycle_witness :
    (RobotSimulator.init 5 100).right.2.right.2.right.2.right.2.direction =
      (RobotSimulator.init 5 100).direction ∧
    (RobotSimulator.init 5 100).left.2.left.2.left.2.left.2.direction =
      (RobotSimulator.init 5 100).direction :=
  C5_turn_cycle (RobotSimulator.init 5 100) (by decide)

/-- C6: the battery never goes negative along any operation sequence;
at battery levels 0–4 `forward` (cost 5) fails, while `left`/`right`
(cost 2) succeed whenever battery ≥ 2. -/
theorem C6_battery :
    (∀ (grid_size battery_level : Int) (ops : List Op), 0 ≤ battery_level →
      0 ≤ ((RobotSimulator.init grid_size battery_level).run ops).battery_level) ∧
    (∀ s : RobotSimulator, 0 ≤ s.battery_level → s.battery_level ≤ 4 →
      s.forward = (some Diag.insufficientBattery, s)) ∧
    (∀ s : RobotSimulator, 2 ≤ s.battery_level →
      s.left.1 = none ∧ s.right.1 = none) := by
  refine ⟨?_, ?_, ?_⟩
  · intro gs b ops h
    exact run_battery_nonneg ops _ h
  · intro s h1 h2
    rw [forward_eq, if_pos (by omega)]
  · intro s h
    constructor
    · rw [left_eq, if_neg (by omega)]
    · rw [right_eq, if_neg (by omega)]

/-- Witness for C6 at concrete battery levels. -/
theorem C6_battery_witness :
    0 ≤ ((RobotSimulator.init 5 100).run
      [Op.forward, Op.diagonal "northeast", Op.left]).battery_level ∧
    (RobotSimulator.init 5 3).forward =
      (some Diag.insufficientBattery, RobotSimulator.init 5 3) ∧
    (RobotSimulator.init 5 3).left.1 = none :=
  ⟨C6_battery.1 5 100 [Op.forward, Op.diagonal "northeast", Op.left] (by decide),
   C6_battery.2.1 (RobotSimulator.init 5 3) (by decide) (by decide),
   (C6_battery.2.2 (RobotSimulator.init 5 3) (by decide)).1⟩

/-- C7: `expand_grid n` succeeds iff `n` strictly exceeds the current
grid size; on failure the grid size is unchanged, on success it becomes
`n`, and no call ever shrinks the grid. -/
theorem C7_expand_grid (s : RobotSimulator) (n : Int) :
    (n ≤ s.grid_size → s.expand_grid n = (some Diag.invalidGridSize, s)) ∧
    (s.grid_size < n → s.expand_grid n = (none, { s with grid_size := n })) ∧
    s.grid_size ≤ (s.expand_grid n).2.grid_size := by
  refine ⟨?_, ?_, ?_⟩
  · intro h
    rw [expand_grid_eq, if_pos h]
  · intro h
    rw [expand_grid_eq, if_neg (by omega)]
  · rw [expand_grid_eq]
    by_cases h : n ≤ s.grid_size
    · rw [if_pos h]
    · rw [if_neg h]
      show s.grid_size ≤ n
      omega

/-- Witness for C7: shrinking to 3 fails, growing to 8 succeeds. -/
theorem C7_expand_grid_witness :
    (RobotSimulator.init 5 100).expand_grid 3 =
      (some Diag.invalidGridSize, RobotSimulator.init 5 100) ∧
    (RobotSimulator.init 5 100).expand_grid 8 =
      (none, { RobotSimulator.init 5 100 with grid_size := 8 }) :=
  ⟨(C7_expand_grid (RobotSimulator.init 5 100) 3).1 (by decide),
   (C7_expand_grid (RobotSimulator.init 5 100) 8).2.1 (by decide)⟩

/-- C8: starting from any constructed state and using only the public
operations, the robot position is never a member of the obstacle
set. -/
theorem C8_never_on_obstacle (grid_size battery_level : Int) (ops : List Op) :
    ((RobotSimulator.init grid_size battery_level).run ops).position ∉
      ((RobotSimulator.init grid_size battery_level).run ops).obstacles :=
  run_not_obstacle ops _ (init_not_obstacle grid_size battery_level)

/-- C9: a successful `forward` or `diagonal_move` changes only position
and battery — heading, grid size and the obstacle set are untouched. -/
theorem C9_move_frame (s : RobotSimulator) :
    (s.forward.1 = none →
      s.forward.2.direction = s.direction ∧
      s.forward.2.grid_size = s.grid_size ∧
      s.forward.2.obstacles = s.obstacles) ∧
    (∀ d : String, (s.diagonal_move d).1 = none →
      (s.diagonal_move d).2.direction = s.direction ∧
      (s.diagonal_move d).2.grid_size = s.grid_size ∧
      (s.diagonal_move d).2.obstacles = s.obstacles) := by
  constructor
  · intro h
    rw [forward_eq]
    split_ifs <;> exact ⟨rfl, rfl, rfl⟩
  · intro d h
    rw [diagonal_move_eq]
    split_ifs <;> first | exact ⟨rfl, rfl, rfl⟩ | exact diagonal_step_frame s _

/-- Witness for C9 on two concrete successful moves. -/
theorem C9_move_frame_witness :
    ((RobotSimulator.init 5 100).forward.2.direction = (RobotSimulator.init 5 100).direction ∧
     (RobotSimulator.init 5 100).forward.2.grid_size = (RobotSimulator.init 5 100).grid_size ∧
     (RobotSimulator.init 5 100).forward.2.obstacles = (RobotSimulator.init 5 100).obstacles) ∧
    ((RobotSimulator.diagonal_move (midState 100) "northeast").2.direction =
       (midState 100).direction ∧
     (RobotSimulator.diagonal_move (midState 100) "northeast").2.grid_size =
       (midState 100).grid_size ∧
     (RobotSimulator.diagonal_move (midState 100) "northeast").2.obstacles =
       (midState 100).obstacles) :=
  ⟨(C9_move_frame (RobotSimulator.init 5 100)).1 (by decide),
   (C9_move_frame (midState 100)).2 "northeast" (by decide)⟩

/-- C10: `diagonal_move` evaluates the battery gate before the direction
string — below 7.5 battery it reports insufficient battery even for an
unrecognized direction; an unrecognized direction always returns false
with the state unchanged. -/
theorem C10_gate_before_direction (s : RobotSimulator) (d : String) :
    (2 * s.battery_level < 15 → s.diagonal_move d = (some Diag.insufficientBattery, s)) ∧
    (d ≠ "northeast" → d ≠ "northwest" → d ≠ "southeast" → d ≠ "southwest" →
      (s.diagonal_move d).1 ≠ none ∧ (s.diagonal_move d).2 = s) := by
  constructor
  · intro h
    rw [diagonal_move_eq, if_pos h]
  · intro h1 h2 h3 h4
    rw [diagonal_move_eq]
    by_cases hg : 2 * s.battery_level < 15
    · rw [if_pos hg]
      exact ⟨by simp, rfl⟩
    · rw [if_neg hg, if_neg h1, if_neg h2, if_neg h3, if_neg h4]
      exact ⟨by simp, rfl⟩

/-- Witness for C10: an unknown direction at battery 3 is reported as a
battery failure; at battery 100 it still fails without state change. -/
theorem C10_gate_before_direction_witness :
    RobotSimulator.diagonal_move (RobotSimulator.init 5 3) "sideways" =
      (some Diag.insufficientBattery, RobotSimulator.init 5 3) ∧
    (RobotSimulator.diagonal_move (RobotSimulator.init 5 100) "sideways").1 ≠ none ∧
    (RobotSimulator.diagonal_move (RobotSimulator.init 5 100) "sideways").2 =
      RobotSimulator.init 5 100 :=
  ⟨(C10_gate_before_direction (RobotSimulator.init 5 3) "sideways").1 (by decide),
   (C10_gate_before_direction (RobotSimulator.init 5 100) "sideways").2
     (by decide) (by decide) (by decide) (by decide)⟩
